import Mathlib

/-!
Verification of the BlusWipe repository's internal logic against its
natural-language specification.

The embedding translates, directly from the Python sources:
  * `netlify/functions/remove_background.py` — the serverless multipart
    body extractor (`parse_multipart_form_data`) and the image-data
    selection logic of `handler` (`extractImageData`);
  * `app/api/routes.py` — the batch endpoint (`batch_process`), the
    download-filename guard (`download_file`) and the API-side edge
    enhancement clamp (`api_apply_enhancement`);
  * `app/utils/config.py` — dotted-path configuration lookup
    (`Config.get`) and the built-in default configuration;
  * `netlify/functions/background_remover.py` — `enhance_edges`,
    `add_background`, `get_available_models` and `switch_model`.

Bytes are modelled as `List Nat` (each entry a byte value), Python byte
strings by `strBytes` applied to ASCII literals.  External collaborators
(the segmentation model, the filesystem, PIL raster primitives) are
universally quantified parameters, so every theorem holds for all of
their behaviours.
-/

/-- ASCII byte sequence of a string, mirroring Python `s.encode()` for the
ASCII literals used by the source. -/
def strBytes (s : String) : List Nat :=
  s.toList.map Char.toNat

/-- Python `pat in s` on sequences: `True` iff `pat` occurs as a contiguous
subsequence of `s` (the empty pattern always occurs). -/
def containsSub {α : Type} [DecidableEq α] (pat : List α) : List α → Bool
  | [] => pat.isEmpty
  | a :: t => pat.isPrefixOf (a :: t) || containsSub pat t

/-- Python `s.find(pat)`: index of the first occurrence of `pat` in `s`,
`none` standing for Python's `-1`. -/
def findSub {α : Type} [DecidableEq α] (pat : List α) : List α → Option Nat
  | [] => if pat.isEmpty then some 0 else none
  | a :: t =>
    if pat.isPrefixOf (a :: t) then some 0
    else (findSub pat t).map (fun n => n + 1)

/-- Fuel-indexed worker for `splitOnSub`; `s.length + 1` units of fuel are
always enough for the non-empty separators the source uses, since every
recursive call removes at least one element. -/
def splitOnSubFuel {α : Type} [DecidableEq α] (sep : List α) :
    Nat → List α → List (List α)
  | 0, s => [s]
  | fuel + 1, s =>
    match findSub sep s with
    | none => [s]
    | some i => s.take i :: splitOnSubFuel sep fuel (s.drop (i + sep.length))

/-- Python `s.split(sep)` for a non-empty separator: cuts `s` at each
non-overlapping occurrence of `sep`, left to right. -/
def splitOnSub {α : Type} [DecidableEq α] (sep s : List α) : List (List α) :=
  splitOnSubFuel sep (s.length + 1) s

/-- The double CRLF separating part headers from the part body. -/
def dblCRLF : List Nat := [13, 10, 13, 10]

/-- The file-part test of `parse_multipart_form_data`
(`remove_background.py` line 29): the part must contain both the
`Content-Type:` and the `filename=` markers. -/
def hasFileMarkers (part : List Nat) : Bool :=
  containsSub (strBytes "Content-Type:") part &&
    containsSub (strBytes "filename=") part

/-- Lines 35–36 of `remove_background.py`: strip one trailing CRLF from the
extracted payload if present. -/
def stripTrailingCRLF (d : List Nat) : List Nat :=
  if [13, 10].isSuffixOf d then d.take (d.length - 2) else d

/-- The `for part in parts` loop of `parse_multipart_form_data`
(lines 28–38): return the payload of the first part that has both file
markers and a double-CRLF header terminator; otherwise fall through to the
next part, and to `None` after the last part. -/
def extractFromParts : List (List Nat) → Option (List Nat)
  | [] => none
  | p :: rest =>
    if hasFileMarkers p then
      match findSub dblCRLF p with
      | some i => some (stripTrailingCRLF (p.drop (i + 4)))
      | none => extractFromParts rest
    else extractFromParts rest

/-- `parse_multipart_form_data(body, boundary)` of
`netlify/functions/remove_background.py` (lines 19–41, Strategy B): split
the body on the literal bytes of `--<boundary>` and scan the parts. The
`try/except` wrapper of the source is dead for this pure code (the only
exception source, `split` with an empty separator, cannot occur because
the separator always begins with `--`). -/
def parse_multipart_form_data (body : List Nat) (boundary : String) :
    Option (List Nat) :=
  extractFromParts (splitOnSub (strBytes ("--" ++ boundary)) body)

/-- The 8-byte PNG file signature, used as the concrete `<PNGBYTES>` of the
spec's Strategy B example. -/
def pngSig : List Nat := [137, 80, 78, 71, 13, 10, 26, 10]

/-- The spec's concrete Strategy B body:
`--BOUND\r\nContent-Type: image/png\r\nfilename="x.png"\r\n\r\n<PNGBYTES>\r\n--BOUND--`. -/
def exampleBody : List Nat :=
  strBytes "--BOUND\r\nContent-Type: image/png\r\nfilename=\"x.png\"\r\n\r\n"
    ++ pngSig ++ strBytes "\r\n--BOUND--"

/-! ### Serverless handler: image-data selection (`handler`, lines 94–117) -/

/-- The raw-image signature test of `handler` (line 115): JPEG
start-of-image `FF D8 FF`, the PNG signature prefix `\x89PNG`, or a RIFF
container header. -/
def isImageSignature (body : List Nat) : Bool :=
  List.isPrefixOf [255, 216, 255] body ||
    List.isPrefixOf (strBytes "\x89PNG") body ||
    List.isPrefixOf (strBytes "RIFF") body

/-- Python `str.isspace` characters relevant to `str.strip()` on ASCII
header values. -/
def isPySpace (c : Char) : Bool :=
  c = ' ' || c = '\t' || c = '\n' || c = '\r' || c = '\x0b' || c = '\x0c'

/-- Python `s.strip()`: remove leading and trailing whitespace. -/
def pyStrip (cs : List Char) : List Char :=
  ((cs.dropWhile isPySpace).reverse.dropWhile isPySpace).reverse

/-- The image-data selection logic of `handler`
(`remove_background.py` lines 94–117): when the declared content type
contains `multipart/form-data`, extract the boundary as
`content_type.split('boundary=')[1].strip()` (requiring at least one
occurrence of `boundary=`) and run `parse_multipart_form_data`; otherwise
treat the body as the whole image exactly when it starts with a
recognized image signature. -/
def extractImageData (content_type : String) (body : List Nat) :
    Option (List Nat) :=
  if containsSub "multipart/form-data".toList content_type.toList then
    match splitOnSub "boundary=".toList content_type.toList with
    | _ :: b :: _ => parse_multipart_form_data body (String.mk (pyStrip b))
    | _ => none
  else if isImageSignature body then some body
  else none

/-! ### Batch endpoint (`app/api/routes.py`, `batch_process`, lines 122–171)

The per-item body (read, decode, segment, save) only touches external
collaborators (upload stream, PIL, the segmentation model, the
filesystem), so it is abstracted as a function
`proc : UploadFile → Except String String` returning either the generated
output filename or the message of the exception the `except` clause of
the loop caught.  The repository's own logic — the size gate, the
content-type gate, the per-item record construction and the accumulation
order — is embedded explicitly. -/

/-- One uploaded file, as the route sees it: declared filename, declared
content type (absent for a part with no `Content-Type` header) and raw
content bytes. -/
structure UploadFile where
  filename : String
  contentType : Option String
  content : List Nat
deriving DecidableEq

/-- One entry of the batch response JSON array. -/
structure BatchResult where
  original_filename : String
  status : String
  output_filename : Option String
  download_url : Option String
  error : Option String
deriving DecidableEq

/-- The content-type gate of the batch loop (line 138):
`not file.content_type or not file.content_type.startswith("image/")`.
An absent or empty content type fails, as does one not starting with
`image/` (the empty string is falsy in Python and also fails the prefix
test, so one prefix check captures both disjuncts). -/
def isImageType : Option String → Bool
  | none => false
  | some s => List.isPrefixOf "image/".toList s.toList

/-- The body of the batch loop for one file (lines 137–169): a non-image
content type yields the fixed error record; otherwise the outcome of the
per-item processing yields a success record (with its download URL built
from the generated output filename) or an error record carrying the
exception message. -/
def processItem (proc : UploadFile → Except String String)
    (f : UploadFile) : BatchResult :=
  if isImageType f.contentType then
    match proc f with
    | Except.ok outName =>
      { original_filename := f.filename
        status := "success"
        output_filename := some outName
        download_url := some ("/api/download/" ++ outName)
        error := none }
    | Except.error msg =>
      { original_filename := f.filename
        status := "error"
        output_filename := none
        download_url := none
        error := some msg }
  else
    { original_filename := f.filename
      status := "error"
      output_filename := none
      download_url := none
      error := some "Not an image file" }

/-- `batch_process` (lines 122–171): more than 5 files raises
`HTTPException(400, "Maximum 5 files allowed")` before any item is
touched; otherwise the loop appends exactly one record per file, in
submission order. -/
def batch_process (proc : UploadFile → Except String String)
    (files : List UploadFile) : Except String (List BatchResult) :=
  if files.length > 5 then Except.error "Maximum 5 files allowed"
  else Except.ok (files.map (processItem proc))

/-! ### Download endpoint (`app/api/routes.py`, `download_file`, lines 174–190) -/

/-- Possible outcomes of the download endpoint. -/
inductive DownloadOutcome where
  | invalidFilename
  | notFound
  | serve (filename : String)
deriving DecidableEq

/-- The security check of `download_file` (line 178):
`".." in filename or "/" in filename or "\\" in filename`. -/
def isInvalidDownloadName (filename : String) : Bool :=
  containsSub "..".toList filename.toList ||
    containsSub "/".toList filename.toList ||
    containsSub "\\".toList filename.toList

/-- `download_file` (lines 174–190), with the filesystem abstracted as an
existence oracle `fsExists`: the traversal check runs first and returns
before the filesystem is consulted; only then is `OUTPUT_DIR / filename`
checked and served. -/
def download_file (fsExists : String → Bool) (filename : String) :
    DownloadOutcome :=
  if isInvalidDownloadName filename then DownloadOutcome.invalidFilename
  else if fsExists filename then DownloadOutcome.serve filename
  else DownloadOutcome.notFound

/-! ### Configuration (`app/utils/config.py`) -/

/-- JSON-like configuration values (Python's nested dict/list/str/number/
bool structure; the only float in the defaults, `edge_enhancement = 1.0`,
is integral and modelled as an integer). -/
inductive JValue where
  | str (s : String)
  | num (n : Int)
  | bool (b : Bool)
  | arr (xs : List JValue)
  | obj (fields : List (String × JValue))

/-- Dictionary field lookup (keys of a parsed JSON object are unique, so
first match suffices). -/
def lookupField : List (String × JValue) → String → Option JValue
  | [], _ => none
  | (k, v) :: rest, key => if k = key then some v else lookupField rest key

/-- Python `value[k]` for a string key inside the `try` of `Config.get`:
a present dict key resolves; a missing dict key (`KeyError`) or a
non-dict value (`TypeError`) does not. -/
def jIndex : JValue → String → Option JValue
  | JValue.obj fs, k => lookupField fs k
  | _, _ => none

/-- The resolution loop of `Config.get` (lines 135–138): walk the
segments, failing on the first missing key or type mismatch. -/
def getPath : JValue → List String → Option JValue
  | v, [] => some v
  | v, k :: ks =>
    match jIndex v k with
    | some v2 => getPath v2 ks
    | none => none

/-- `key.split('.')` (line 132). -/
def pySplitDot (key : String) : List String :=
  (splitOnSub ['.'] key.toList).map String.mk

/-- The configuration object: its loaded nested mapping. -/
structure Config where
  config : JValue

/-- `Config.get` (`app/utils/config.py` lines 121–140): split the key on
`.`, resolve through the nested mapping, and return the caller-supplied
default when any segment raises `KeyError` or `TypeError`.  The embedding
is a total function, so no exception can escape. -/
def Config.get (c : Config) (key : String) (dflt : JValue) : JValue :=
  match getPath c.config (pySplitDot key) with
  | some v => v
  | none => dflt

/-- The built-in `_default_config` of `Config.__init__` (lines 25–69).
The two path-valued entries derived from the runtime `config_dir`
(`models.cache_dir`, `logging.file`) are fixed here to their
development-mode values relative to the project root; no claim depends
on them. -/
def defaultConfig : JValue := JValue.obj
  [ ("models", JValue.obj
      [ ("default", JValue.str "u2net"),
        ("available", JValue.arr
          [ JValue.str "u2net", JValue.str "u2netp",
            JValue.str "u2net_human_seg", JValue.str "silueta",
            JValue.str "isnet-general-use" ]),
        ("cache_dir", JValue.str "config/models") ]),
    ("processing", JValue.obj
      [ ("max_image_size", JValue.num 2048),
        ("quality", JValue.str "high"),
        ("edge_enhancement", JValue.num 1),
        ("use_gpu", JValue.bool true),
        ("batch_size", JValue.num 1) ]),
    ("web", JValue.obj
      [ ("host", JValue.str "127.0.0.1"),
        ("port", JValue.num 8000),
        ("max_file_size", JValue.num 10485760),
        ("max_batch_files", JValue.num 10),
        ("cleanup_interval", JValue.num 3600),
        ("file_retention", JValue.num 3600) ]),
    ("desktop", JValue.obj
      [ ("window_size", JValue.arr [JValue.num 1000, JValue.num 700]),
        ("theme", JValue.str "dark"),
        ("auto_save", JValue.bool true),
        ("show_preview", JValue.bool true) ]),
    ("paths", JValue.obj
      [ ("uploads", JValue.str "uploads"),
        ("outputs", JValue.str "outputs"),
        ("temp", JValue.str "temp"),
        ("logs", JValue.str "logs") ]),
    ("logging", JValue.obj
      [ ("level", JValue.str "INFO"),
        ("format", JValue.str "%(asctime)s - %(name)s - %(levelname)s - %(message)s"),
        ("file", JValue.str "config/logs/bluswipe.log") ]) ]

/-! ### Edge enhancement (`background_remover.py` `enhance_edges`, lines
161–177, and the API clamp of `routes.py`, lines 100–102) -/

/-- A decoded raster for the enhancement model: color mode plus its pixel
channel values, each a byte value modelled as an exact rational (PIL
computes the blend in floating point and clips to the byte range; at the
factors the claims examine the computation is exact, so rationals are
faithful). -/
structure QImage where
  mode : String
  px : List Rat
deriving DecidableEq

/-- Clipping of a blended channel value to the byte range `[0, 255]`. -/
def clipByte (x : Rat) : Rat := min 255 (max 0 x)

/-- Modelled from the spec: the sharpening operator applied by
`enhance_edges` lives in the external PIL library
(`ImageEnhance.Sharpness(image).enhance(strength)`), not in this
repository.  Per the spec it is "parameterized linearly by strength;
strength 0 fully desaturates sharpness (blur-equivalent), 1 is identity,
>1 oversharpens": the output interpolates linearly, with the given
factor, from a smoothed (degenerate) copy of the image toward the image
itself, channel values clipped to the byte range.  The smoothing kernel
itself is left abstract (`smooth`), so every theorem below holds for all
smoothing behaviours. -/
def sharpnessEnhance (smooth : QImage → QImage) (image : QImage)
    (factor : Rat) : QImage :=
  { mode := image.mode
    px := List.zipWith (fun a b => clipByte (a + (b - a) * factor))
      (smooth image).px image.px }

/-- `BackgroundRemover.enhance_edges` (lines 161–177): apply the PIL
sharpness enhancer at exactly the strength it was given — no clamping.
The `try/except` returning the original image guards PIL-internal
failures only; the pure model cannot fail. -/
def enhance_edges (smooth : QImage → QImage) (image : QImage)
    (strength : Rat) : QImage :=
  sharpnessEnhance smooth image strength

/-- The API layer's enhancement step (`routes.py` lines 100–102):
`enhance_edges` runs only when the requested strength differs from 1.0,
and then on the value clamped to `[0.5, 2.0]` via
`max(0.5, min(2.0, enhancement))`. -/
def api_apply_enhancement (smooth : QImage → QImage) (result : QImage)
    (enhancement : Rat) : QImage :=
  if enhancement = 1 then result
  else enhance_edges smooth result (max (1/2) (min 2 enhancement))

/-- A smoothing function that zeroes every channel, used as a concrete
instance exhibiting that the enhancer applies out-of-range strengths
without clamping them. -/
def smoothZero : QImage → QImage :=
  fun im => { mode := im.mode, px := im.px.map (fun _ => 0) }

/-- A one-channel probe image. -/
def probeImage : QImage := { mode := "RGBA", px := [100] }

/-! ### Compositor (`background_remover.py` `add_background`, lines
179–220)

The PIL raster primitives (`Image.open`, `resize`, `convert`,
`alpha_composite`) are external; they are taken as parameters so the
theorems hold for every implementation of them. -/

/-- A decoded raster at the granularity the compositor claims need:
color mode, dimensions and raw channel data. -/
structure PImage where
  mode : String
  width : Nat
  height : Nat
  px : List Nat
deriving DecidableEq

/-- The ad-hoc union type of `add_background`'s `background` argument:
file path, solid RGB color tuple, or an already-decoded raster.  A value
of any other Python type raises `ValueError`; that case is
unrepresentable here. -/
inductive BackgroundSpec where
  | path (p : String)
  | color (r g b : Nat)
  | image (img : PImage)

/-- `Image.new('RGB', foreground.size, background)` (line 198): a solid
RGB raster of the foreground's dimensions. -/
def newSolidRGB (w h r g b : Nat) : PImage :=
  { mode := "RGB", width := w, height := h
    px := List.flatten (List.replicate (w * h) [r, g, b]) }

/-- `BackgroundRemover.add_background` (lines 179–220).  `openImage`
models `Image.open` on a path (`none` = the exception it may raise,
which the source re-raises); `resize`, `convert` and `alphaComposite`
model the PIL raster primitives.  After resolving and resizing the
background and converting it to RGB if needed, an RGBA foreground is
alpha-composited over it and flattened to RGB; any other foreground mode
is returned unchanged. -/
def add_background (openImage : String → Option PImage)
    (resize : PImage → Nat → Nat → PImage)
    (convert : PImage → String → PImage)
    (alphaComposite : PImage → PImage → PImage)
    (foreground : PImage) (background : BackgroundSpec) :
    Except String PImage :=
  match
    (match background with
     | BackgroundSpec.path p => openImage p
     | BackgroundSpec.color r g b =>
       some (newSolidRGB foreground.width foreground.height r g b)
     | BackgroundSpec.image i => some i) with
  | none => Except.error "cannot open background image"
  | some bg0 =>
    let bg1 := resize bg0 foreground.width foreground.height
    let bg2 := if bg1.mode = "RGB" then bg1 else convert bg1 "RGB"
    if foreground.mode = "RGBA" then
      Except.ok (convert (alphaComposite (convert bg2 "RGBA") foreground) "RGB")
    else Except.ok foreground

/-! ### Model switching (`background_remover.py`, lines 279–289) -/

/-- `BackgroundRemover.get_available_models` (lines 279–281). -/
def available_models : List String :=
  ["u2net", "u2netp", "u2net_human_seg", "silueta", "isnet-general-use"]

/-- The mutable state of a `BackgroundRemover`: its current model name
and its current session (abstracted to a numeric handle; `none` models a
session never created). -/
structure RemoverState where
  model_name : String
  session : Option Nat
deriving DecidableEq

/-- Exceptions the model-switching path can raise. -/
inductive PyError where
  | valueError (msg : String)
  | initFailure
deriving DecidableEq

/-- `BackgroundRemover._initialize_model` (lines 60–76), with
`rembg.new_session` abstracted as `newSession` (`none` = it raised).
On failure for the current model name the source sets
`self.model_name = "u2net"` and retries once; if the retry also fails the
exception propagates with the state mutated to that fallback name (the
old session is left in place).  Errors carry the post-mutation state. -/
def init_model (newSession : String → Option Nat) (st : RemoverState) :
    Except (PyError × RemoverState) RemoverState :=
  match newSession st.model_name with
  | some s => Except.ok { st with session := some s }
  | none =>
    match newSession "u2net" with
    | some s => Except.ok { model_name := "u2net", session := some s }
    | none =>
      Except.error (PyError.initFailure, { st with model_name := "u2net" })

/-- `BackgroundRemover.switch_model` (lines 283–289): a name outside
`available_models` raises `ValueError` before any state is touched;
otherwise `self.model_name` is set to the requested name and the session
re-created via `_initialize_model` (which may itself fall back). -/
def switch_model (newSession : String → Option Nat) (st : RemoverState)
    (model_name : String) : Except (PyError × RemoverState) RemoverState :=
  if model_name ∈ available_models then
    init_model newSession { st with model_name := model_name }
  else
    Except.error
      (PyError.valueError ("Model " ++ model_name ++ " not available"), st)

/-! ## Theorems -/

theorem extractFromParts_eq_none (parts : List (List Nat))
    (h : ∀ p ∈ parts, hasFileMarkers p = false) :
    extractFromParts parts = none := by
  induction parts with
  | nil => rfl
  | cons q rest ih =>
    have hq : hasFileMarkers q = false := h q (List.mem_cons_self q rest)
    simp only [extractFromParts, hq, Bool.false_eq_true, if_false]
    exact ih (fun p hp => h p (List.mem_cons_of_mem q hp))

theorem extractFromParts_first (parts : List (List Nat)) (p : List Nat)
    (i : Nat) (hfind : parts.find? hasFileMarkers = some p)
    (hsep : findSub dblCRLF p = some i) :
    extractFromParts parts = some (stripTrailingCRLF (p.drop (i + 4))) := by
  induction parts with
  | nil => simp at hfind
  | cons q rest ih =>
    by_cases hq : hasFileMarkers q = true
    · rw [List.find?_cons_of_pos _ hq] at hfind
      have hpq : q = p := by injection hfind
      subst hpq
      simp only [extractFromParts, hq, if_true, hsep]
    · have hq' : hasFileMarkers q = false := by
        cases hb : hasFileMarkers q
        · rfl
        · exact absurd hb hq
      rw [List.find?_cons_of_neg _ hq] at hfind
      simp only [extractFromParts, hq', Bool.false_eq_true, if_false]
      exact ih hfind

theorem zipWith_blend_one (as bs : List Rat) (hlen : as.length = bs.length)
    (hrange : ∀ p ∈ bs, 0 ≤ p ∧ p ≤ 255) :
    List.zipWith (fun a b => clipByte (a + (b - a) * 1)) as bs = bs := by
  induction as generalizing bs with
  | nil =>
    cases bs with
    | nil => rfl
    | cons b t => simp at hlen
  | cons a as ih =>
    cases bs with
    | nil => simp at hlen
    | cons b t =>
      have hb := hrange b (List.mem_cons_self b t)
      have ht : ∀ p ∈ t, 0 ≤ p ∧ p ≤ 255 :=
        fun p hp => hrange p (List.mem_cons_of_mem b hp)
      have hlen' : as.length = t.length := by simpa using hlen
      rw [List.zipWith_cons_cons]
      congr 1
      · unfold clipByte
        have hab : a + (b - a) * 1 = b := by ring
        rw [hab, max_eq_right hb.1, min_eq_right hb.2]
      · exact ih t hlen' ht

/-- C1: for every batch accepted for processing (at most 5 files) and
every behaviour of the per-item processing, the endpoint returns `ok`
with one record per input file; the record at index `i` is exactly the
record produced from input `i` alone (so order is preserved and no
item's failure affects any other item's record), and every record
carries its own input's filename. -/
theorem C1_batch_order_isolation (proc : UploadFile → Except String String)
    (files : List UploadFile) (h : files.length ≤ 5) :
    batch_process proc files = Except.ok (files.map (processItem proc))
    ∧ (files.map (processItem proc)).length = files.length
    ∧ (∀ i (hi : i < files.length),
        (files.map (processItem proc))[i]? = some (processItem proc files[i]))
    ∧ ∀ i (hi : i < files.length),
        (processItem proc files[i]).original_filename = files[i].filename := by
  refine ⟨?_, List.length_map _ _, ?_, ?_⟩
  · unfold batch_process
    rw [if_neg (Nat.not_lt.mpr h)]
  · intro i hi
    rw [List.getElem?_map, List.getElem?_eq_getElem hi]
    rfl
  · intro i hi
    unfold processItem
    split
    · split <;> rfl
    · rfl

theorem C1_batch_order_isolation_witness :
    batch_process (fun _ => Except.ok "out.png")
        [(⟨"a.png", some "image/png", [1]⟩ : UploadFile)]
      = Except.ok
          ([(⟨"a.png", some "image/png", [1]⟩ : UploadFile)].map
            (processItem (fun _ => Except.ok "out.png"))) :=
  (C1_batch_order_isolation (fun _ => Except.ok "out.png")
    [(⟨"a.png", some "image/png", [1]⟩ : UploadFile)] (by decide)).1

/-- C4: a batch of more than 5 files is rejected wholesale with the
single error `Maximum 5 files allowed`; the outcome is the same for
every per-item processing behaviour, so no item is processed and no
per-item records exist. -/
theorem C4_batch_size_reject (proc procOther : UploadFile → Except String String)
    (files : List UploadFile) (h : 5 < files.length) :
    batch_process proc files = Except.error "Maximum 5 files allowed"
    ∧ batch_process proc files = batch_process procOther files := by
  constructor
  · simp [batch_process, h]
  · simp [batch_process, h]

theorem C4_batch_size_reject_witness :
    batch_process (fun _ => Except.ok "o")
        (List.replicate 6 (⟨"a", some "image/png", []⟩ : UploadFile))
      = Except.error "Maximum 5 files allowed" :=
  (C4_batch_size_reject (fun _ => Except.ok "o") (fun _ => Except.error "x")
    (List.replicate 6 (⟨"a", some "image/png", []⟩ : UploadFile))
    (by decide)).1

/-- C5: within an accepted batch, an item whose declared content type is
absent or does not start with `image/` yields the per-item record
`{status := error, error := "Not an image file"}` at its own index, and
every other index still carries the record produced from its own input
(the loop continues; the embedding is total, so no exception escapes). -/
theorem C5_nonimage_item (proc : UploadFile → Except String String)
    (files : List UploadFile) (i : Nat) (hi : i < files.length)
    (h5 : files.length ≤ 5)
    (hbad : isImageType files[i].contentType = false) :
    batch_process proc files = Except.ok (files.map (processItem proc))
    ∧ (files.map (processItem proc))[i]? = some
        { original_filename := files[i].filename
          status := "error"
          output_filename := none
          download_url := none
          error := some "Not an image file" }
    ∧ ∀ j (hj : j < files.length),
        (files.map (processItem proc))[j]? = some (processItem proc files[j]) := by
  refine ⟨?_, ?_, ?_⟩
  · unfold batch_process
    rw [if_neg (Nat.not_lt.mpr h5)]
  · rw [List.getElem?_map, List.getElem?_eq_getElem hi]
    simp [processItem, hbad]
  · intro j hj
    rw [List.getElem?_map, List.getElem?_eq_getElem hj]
    rfl

theorem C5_nonimage_item_witness :
    ([(⟨"doc.txt", some "text/plain", []⟩ : UploadFile)].map
      (processItem (fun _ => Except.error "e")))[0]?
      = some (⟨"doc.txt", "error", none, none,
          some "Not an image file"⟩ : BatchResult) :=
  (C5_nonimage_item (fun _ => Except.error "e")
    [(⟨"doc.txt", some "text/plain", []⟩ : UploadFile)]
    0 (by decide) (by decide) (by decide)).2.1

/-- C2: Strategy B extraction splits the body on the literal bytes of
`--<boundary>` and scans the parts in order: if no part carries both the
`Content-Type:` and `filename=` markers the result is `None`; if the
first marker-carrying part has a double-CRLF header terminator at index
`i`, the result is that part's bytes after the terminator with a single
trailing CRLF stripped.  On the spec's concrete body
`--BOUND\r\n...filename="x.png"\r\n\r\n<PNGBYTES>\r\n--BOUND--` with
boundary `BOUND` the result is exactly `<PNGBYTES>`. -/
theorem C2_strategyB_extraction (body : List Nat) (boundary : String) :
    ((∀ p ∈ splitOnSub (strBytes ("--" ++ boundary)) body,
        hasFileMarkers p = false) →
      parse_multipart_form_data body boundary = none)
    ∧ (∀ p i,
        (splitOnSub (strBytes ("--" ++ boundary)) body).find? hasFileMarkers
          = some p →
        findSub dblCRLF p = some i →
        parse_multipart_form_data body boundary
          = some (stripTrailingCRLF (p.drop (i + 4))))
    ∧ parse_multipart_form_data exampleBody "BOUND" = some pngSig := by
  refine ⟨?_, ?_, by decide⟩
  · intro h
    exact extractFromParts_eq_none _ h
  · intro p i h1 h2
    exact extractFromParts_first _ p i h1 h2

theorem C2_strategyB_extraction_witness :
    parse_multipart_form_data exampleBody "BOUND" = some pngSig :=
  (C2_strategyB_extraction [] "").2.2

/-- C3 counterexample: a body that begins with the JPEG start-of-image
signature `FF D8 FF` is nonetheless fed to the boundary-based multipart
parser — and yields no image at all — when the declared content type
contains `multipart/form-data`, so the claim's unconditional statement
fails on the code. -/
theorem C3_signature_counterexample :
    isImageSignature [255, 216, 255] = true
    ∧ extractImageData "multipart/form-data; boundary=B" [255, 216, 255]
        = parse_multipart_form_data [255, 216, 255] "B"
    ∧ extractImageData "multipart/form-data; boundary=B" [255, 216, 255]
        ≠ some [255, 216, 255] := by
  refine ⟨by decide, by decide, by decide⟩

/-- C3 (amended): when the declared content type does not contain
`multipart/form-data`, a body beginning with a recognized image
signature (JPEG `FF D8 FF`, PNG, or RIFF) is treated as the image
payload in its entirety, with no boundary-based parsing invoked. -/
theorem C3_signature_amended (content_type : String) (body : List Nat)
    (hct : containsSub "multipart/form-data".toList content_type.toList
      = false)
    (hsig : isImageSignature body = true) :
    extractImageData content_type body = some body := by
  unfold extractImageData
  rw [hct, hsig]
  simp

theorem C3_signature_amended_witness :
    extractImageData "" [255, 216, 255] = some [255, 216, 255] :=
  C3_signature_amended "" [255, 216, 255] (by decide) (by decide)

/-- C6: edge enhancement with strength exactly 1 returns the input image
unchanged (for any smoothing kernel that preserves pixel count, on any
in-range image); the core enhancer applies whatever strength it is given
directly with no clamping — in particular it accepts 0.5 and 2.0, and an
out-of-range strength 3 produces a different result from the clamped
value 2, so no clamp happens inside it; the API layer alone clamps the
strength to `[0.5, 2.0]` (and skips the enhancer entirely at strength
exactly 1). -/
theorem C6_enhancement_noop_and_clamp (smooth : QImage → QImage)
    (img : QImage) (s e : Rat)
    (hlen : (smooth img).px.length = img.px.length)
    (hrange : ∀ p ∈ img.px, 0 ≤ p ∧ p ≤ 255) :
    enhance_edges smooth img 1 = img
    ∧ enhance_edges smooth img s = sharpnessEnhance smooth img s
    ∧ enhance_edges smoothZero probeImage (1/2)
        = { mode := "RGBA", px := [50] }
    ∧ enhance_edges smoothZero probeImage 2 = { mode := "RGBA", px := [200] }
    ∧ enhance_edges smoothZero probeImage 3
        ≠ enhance_edges smoothZero probeImage 2
    ∧ (1/2 : Rat) ≤ max (1/2) (min 2 e)
    ∧ max (1/2) (min 2 e) ≤ 2
    ∧ (e ≠ 1 → api_apply_enhancement smooth img e
        = enhance_edges smooth img (max (1/2) (min 2 e)))
    ∧ api_apply_enhancement smooth img 1 = img := by
  refine ⟨?_, rfl, ?_, ?_, ?_, le_max_left _ _,
    max_le (by norm_num) (min_le_left _ _), ?_, ?_⟩
  · cases img with
    | mk m p =>
      simp only [enhance_edges, sharpnessEnhance]
      congr 1
      exact zipWith_blend_one _ _ hlen hrange
  · unfold enhance_edges sharpnessEnhance smoothZero probeImage
    norm_num [clipByte, min_def, max_def]
  · unfold enhance_edges sharpnessEnhance smoothZero probeImage
    norm_num [clipByte, min_def, max_def]
  · unfold enhance_edges sharpnessEnhance smoothZero probeImage
    norm_num [clipByte, min_def, max_def]
  · intro he
    simp [api_apply_enhancement, he]
  · simp [api_apply_enhancement]

theorem C6_enhancement_noop_and_clamp_witness :
    enhance_edges smoothZero probeImage 1 = probeImage :=
  (C6_enhancement_noop_and_clamp smoothZero probeImage 0 0 rfl
    (by intro p hp; rw [show probeImage.px = [100] from rfl,
          List.mem_singleton] at hp; subst hp; norm_num)).1

/-- C7: `Config.get` splits the key on `.` and resolves through the
nested mapping: when every segment resolves it returns the stored value,
and on any missing segment or type mismatch along the path it returns
the caller-supplied default (the embedding is a total function, so it
never raises).  On the built-in defaults, `models.default` yields the
configured default model string `u2net`, and `nonexistent.key` yields
the caller's default. -/
theorem C7_config_dotted_lookup (c : Config) (key : String) (dflt : JValue) :
    (∀ v, getPath c.config (pySplitDot key) = some v →
      Config.get c key dflt = v)
    ∧ (getPath c.config (pySplitDot key) = none →
      Config.get c key dflt = dflt)
    ∧ Config.get ⟨defaultConfig⟩ "models.default" dflt = JValue.str "u2net"
    ∧ Config.get ⟨defaultConfig⟩ "nonexistent.key" dflt = dflt := by
  refine ⟨?_, ?_, rfl, rfl⟩
  · intro v hv
    unfold Config.get
    rw [hv]
  · intro hv
    unfold Config.get
    rw [hv]

theorem C7_config_dotted_lookup_witness :
    Config.get ⟨defaultConfig⟩ "models.default" (JValue.num 0)
      = JValue.str "u2net" :=
  (C7_config_dotted_lookup ⟨defaultConfig⟩ "k" (JValue.num 0)).2.2.1

/-- C8: whenever the foreground's color mode is not `RGBA`, and the
background resolves (a solid color or in-memory raster always does; a
path background as long as it opens), `add_background` skips compositing
and returns the foreground unchanged — for every implementation of the
PIL raster primitives. -/
theorem C8_no_alpha_passthrough (openImage : String → Option PImage)
    (resize : PImage → Nat → Nat → PImage)
    (convert : PImage → String → PImage)
    (alphaComposite : PImage → PImage → PImage)
    (fg : PImage) (bg : BackgroundSpec)
    (hmode : fg.mode ≠ "RGBA")
    (hopen : ∀ p, bg = BackgroundSpec.path p → (openImage p).isSome = true) :
    add_background openImage resize convert alphaComposite fg bg
      = Except.ok fg := by
  cases bg with
  | path p =>
    obtain ⟨img, himg⟩ := Option.isSome_iff_exists.mp (hopen p rfl)
    simp [add_background, himg, hmode]
  | color r g b => simp [add_background, hmode]
  | image i => simp [add_background, hmode]

theorem C8_no_alpha_passthrough_witness :
    add_background (fun _ => none) (fun i _ _ => i) (fun i _ => i)
        (fun a _ => a) (⟨"RGB", 1, 1, [0, 0, 0]⟩ : PImage)
        (BackgroundSpec.color 1 2 3)
      = Except.ok (⟨"RGB", 1, 1, [0, 0, 0]⟩ : PImage) :=
  C8_no_alpha_passthrough (fun _ => none) (fun i _ _ => i) (fun i _ => i)
    (fun a _ => a) (⟨"RGB", 1, 1, [0, 0, 0]⟩ : PImage)
    (BackgroundSpec.color 1 2 3) (by decide)
    (fun p h => BackgroundSpec.noConfusion h)

/-- C9: a filename containing `..`, `/` or `\` makes the download
endpoint answer `Invalid filename` — identically under every filesystem
state, i.e. before the filesystem is touched — and conversely a file is
only ever served under the requested filename, which then contains none
of the traversal sequences. -/
theorem C9_download_traversal_guard (fsExists fsOther : String → Bool)
    (filename served : String) :
    (isInvalidDownloadName filename = true →
      download_file fsExists filename = DownloadOutcome.invalidFilename
      ∧ download_file fsExists filename = download_file fsOther filename)
    ∧ (download_file fsExists filename = DownloadOutcome.serve served →
      isInvalidDownloadName filename = false ∧ served = filename) := by
  constructor
  · intro h
    constructor <;> simp [download_file, h]
  · intro h
    cases hv : isInvalidDownloadName filename with
    | true => simp [download_file, hv] at h
    | false =>
      refine ⟨rfl, ?_⟩
      unfold download_file at h
      rw [hv] at h
      simp only [Bool.false_eq_true, if_false] at h
      cases he : fsExists filename with
      | true =>
        rw [he] at h
        simp only [if_true] at h
        injection h with h2
        exact h2.symm
      | false =>
        rw [he] at h
        simp at h

theorem C9_download_traversal_guard_witness :
    download_file (fun _ => true) "a/../b" = DownloadOutcome.invalidFilename :=
  ((C9_download_traversal_guard (fun _ => true) (fun _ => false)
    "a/../b" "x").1 (by decide)).1

/-- C10 counterexample: `silueta` is an available model, yet switching
to it while session creation for `silueta` fails (and succeeds for the
fallback `u2net`) completes without error with the model name set to
`u2net`, not to the requested `silueta` — refuting the claim that every
available name ends up as the current model name. -/
theorem C10_switch_model_counterexample :
    "silueta" ∈ available_models
    ∧ switch_model (fun n => if n = "u2net" then some 1 else none)
        { model_name := "u2net", session := some 0 } "silueta"
      = Except.ok { model_name := "u2net", session := some 1 }
    ∧ ("u2net" : String) ≠ "silueta" := by
  refine ⟨by decide, rfl, by decide⟩

/-- C10 (amended): for a name outside the five available model
identifiers, `switch_model` raises `ValueError` with both the model name
and the session unchanged; for an available name whose session creation
succeeds, it sets the model name to the requested name and installs the
fresh session.  If session creation for the requested available name
fails, it instead falls back to `u2net` (installing that name and a
fresh `u2net` session), and if the fallback also fails the exception
propagates with the model name left as `u2net` and the session
untouched. -/
theorem C10_switch_model_amended (newSession : String → Option Nat)
    (st : RemoverState) (name : String) :
    (name ∉ available_models →
      switch_model newSession st name
        = Except.error
            (PyError.valueError ("Model " ++ name ++ " not available"), st))
    ∧ (∀ s, name ∈ available_models → newSession name = some s →
      switch_model newSession st name
        = Except.ok { model_name := name, session := some s })
    ∧ (∀ s2, name ∈ available_models → newSession name = none →
      newSession "u2net" = some s2 →
      switch_model newSession st name
        = Except.ok { model_name := "u2net", session := some s2 })
    ∧ (name ∈ available_models → newSession name = none →
      newSession "u2net" = none →
      switch_model newSession st name
        = Except.error
            (PyError.initFailure, { st with model_name := "u2net" })) := by
  refine ⟨?_, ?_, ?_, ?_⟩
  · intro h
    simp [switch_model, h]
  · intro s hm hs
    simp [switch_model, hm, init_model, hs]
  · intro s2 hm hs hu
    simp [switch_model, hm, init_model, hs, hu]
  · intro hm hs hu
    simp [switch_model, hm, init_model, hs, hu]

theorem C10_switch_model_amended_witness :
    switch_model (fun _ => none) { model_name := "u2net", session := none }
        "bogus"
      = Except.error
          (PyError.valueError ("Model " ++ "bogus" ++ " not available"),
            { model_name := "u2net", session := none }) :=
  (C10_switch_model_amended (fun _ => none)
    { model_name := "u2net", session := none } "bogus").1 (by decide)
